import Mathlib

/-!
# Verification of the zraft core against its specification

Shallow embedding of the zraft consensus core (src/progress.c,
src/replication.c, src/client.c, src/recv.c, src/recv_request_vote.c,
src/state.c) together with proofs settling the specification claims.

Machine integers (`raft_index`, `raft_term`, `raft_id`, `raft_time`) are
embedded as `Nat`; subtractions that can wrap in the C sources use the
explicit 64-bit wrap-around helper `u64sub`.
-/

namespace ZRaft

/-- 2^64, the modulus of the C `uint64_t` quantities. -/
def U64MOD : Nat := 2 ^ 64

/-- Wrap-around subtraction of 64-bit unsigned values (both operands are
assumed to be below 2^64, as they are in the C sources). -/
def u64sub (a b : Nat) : Nat := (a + U64MOD - b) % U64MOD

/-! ## Error codes

Modelled from the spec: §6 error taxonomy.  The concrete numeric values of
the `RAFT_*` status codes live in the public header, which is not among the
sources; only their distinctness and being nonzero is relied upon. -/

def RAFT_NOMEM : Int := 1
def RAFT_BADID : Int := 2
def RAFT_DUPLICATEID : Int := 3
def RAFT_BADROLE : Int := 5
def RAFT_MALFORMED : Int := 6
def RAFT_NOTLEADER : Int := 7
def RAFT_SHUTDOWN : Int := 8
def RAFT_BUSY : Int := 9
def RAFT_NOTFOUND : Int := 12
def RAFT_APPLY_BUSY : Int := 13
def RAFT_LOG_BUSY : Int := 14
def RAFT_NOCONNECTION : Int := 15
def RAFT_DISCARD : Int := 16

/-! ## Entries and the log -/

/-- Entry types (`RAFT_COMMAND`, `RAFT_BARRIER`, `RAFT_CHANGE`). -/
inductive EntryType where
  | command
  | barrier
  | change
  deriving DecidableEq, Repr

/-- A log entry: `{term, type, payload}` (the batch header is I/O-only). -/
structure Entry where
  term : Nat
  etype : EntryType
  payload : List Nat := []
  deriving DecidableEq, Repr

/-- Modelled from the spec: §4.1 Log (log.c is not among the sources).
An ordered entry sequence anchored by the snapshot cursor; `offset` is the
index of the entry preceding `entries.head` (normally the snapshot's last
index), `refs` lists the indices currently referenced by in-flight I/O. -/
structure RaftLog where
  offset : Nat
  snapLastIndex : Nat
  snapLastTerm : Nat
  entries : List Entry
  refs : List Nat := []
  deriving DecidableEq, Repr

/-- Modelled from the spec: `last_index()` of §4.1. -/
def logLastIndex (l : RaftLog) : Nat := l.offset + l.entries.length

/-- Modelled from the spec: `num_entries()` of §4.1. -/
def logNumEntries (l : RaftLog) : Nat := l.entries.length

/-- Modelled from the spec: `snapshot_index()` of §4.1. -/
def logSnapshotIndex (l : RaftLog) : Nat := l.snapLastIndex

/-- Modelled from the spec: `term_of(index) → term|0` of §4.1: the term of
the entry at `index`, the snapshot's last term at the snapshot anchor, and
0 when the log has no entry at `index`. -/
def logTermOf (l : RaftLog) (index : Nat) : Nat :=
  if index = l.snapLastIndex then l.snapLastTerm
  else if l.offset < index then
    match l.entries.get? (index - l.offset - 1) with
    | some e => e.term
    | none => 0
  else 0

/-- Modelled from the spec: `truncate(from)` of §4.1 (L3): removes all
entries with index ≥ `from`. -/
def logTruncate (l : RaftLog) (from_ : Nat) : RaftLog :=
  { l with entries := l.entries.take (from_ - l.offset - 1) }

/-- Modelled from the spec: `discard(from)` of §4.1; same in-memory effect
as `truncate` (the difference is only in the I/O layer). -/
def logDiscard (l : RaftLog) (from_ : Nat) : RaftLog :=
  { l with entries := l.entries.take (from_ - l.offset - 1) }

/-- Modelled from the spec: `append(term, type, payload)` of §4.1. -/
def logAppend (l : RaftLog) (term : Nat) (ty : EntryType) (payload : List Nat) : RaftLog :=
  { l with entries := l.entries ++ [⟨term, ty, payload⟩] }

/-- Modelled from the spec: `append_commands(term, payloads[])` of §4.1. -/
def logAppendCommands (l : RaftLog) (term : Nat) (bufs : List (List Nat)) : RaftLog :=
  { l with entries := l.entries ++ bufs.map (fun b => ⟨term, .command, b⟩) }

/-- Modelled from the spec: `is_referenced` of §4.1 (L3): some entry in
`[index, last_index]` is referenced by an in-flight I/O. -/
def isRefs (l : RaftLog) (index : Nat) : Bool :=
  l.refs.any (fun j => index ≤ j && j ≤ logLastIndex l)

/-! ## Configuration -/

/-- Server roles (`RAFT_VOTER`, `RAFT_STANDBY`, `RAFT_SPARE`, `RAFT_LOGGER`). -/
inductive Role where
  | voter
  | standby
  | spare
  | logger
  deriving DecidableEq, Repr

/-- Joint-consensus group masks. -/
def RAFT_GROUP_OLD : Nat := 1
def RAFT_GROUP_NEW : Nat := 2
def RAFT_GROUP_ANY : Nat := 3

/-- Configuration phase (`RAFT_CONF_NORMAL`, `RAFT_CONF_JOINT`). -/
inductive ConfPhase where
  | normal
  | joint
  deriving DecidableEq, Repr

/-- A configured server: `{id, role, role_new, group}` (§3). -/
structure Server where
  id : Nat
  role : Role
  roleNew : Role
  group : Nat
  deriving DecidableEq, Repr

/-- A configuration: ordered server list plus the joint phase (§3). -/
structure Configuration where
  servers : List Server
  phase : ConfPhase
  deriving DecidableEq, Repr

/-- Modelled from the spec: `voter_count` of §4.2 (configuration.c is not
among the sources).  `replicationQuorum` calls it with no group argument
and its own voter loop filters on `role == RAFT_VOTER` only, so the count
is over all servers whose current role is VOTER. -/
def configurationVoterCount (c : Configuration) : Nat :=
  c.servers.countP (fun s => s.role = .voter)

/-- Modelled from the spec: `get(id)` of §4.2. -/
def configurationGet (c : Configuration) (id : Nat) : Option Server :=
  c.servers.find? (fun s => s.id = id)

/-- Modelled from the spec: `index_of(id)` of §4.2, returning `n` when the
id is absent. -/
def configurationIndexOf (c : Configuration) (id : Nat) : Nat :=
  match c.servers.findIdx? (fun s => s.id = id) with
  | some i => i
  | none => c.servers.length

/-- Modelled from the spec: `server_role(id)` of §4.2. -/
def configurationServerRole (c : Configuration) (id : Nat) : Role :=
  match configurationGet c id with
  | some s => s.role
  | none => .standby

/-! ## Progress (src/progress.c) -/

/-- Per-peer replication states (`PROGRESS__PROBE`, `PROGRESS__PIPELINE`,
`PROGRESS__SNAPSHOT`). -/
inductive PState where
  | probe
  | pipeline
  | snapshot
  deriving DecidableEq, Repr

/-- Per-peer progress bookkeeping (`struct raft_progress`). -/
structure Progress where
  nextIndex : Nat
  matchIndex : Nat
  snapshotIndex : Nat
  lastSend : Nat
  snapshotLastSend : Nat
  recentRecv : Bool
  state : PState
  deriving DecidableEq, Repr

/-- `initProgress` (progress.c:24): initialize a single progress object. -/
def initProgress (last_index : Nat) : Progress :=
  { nextIndex := last_index + 1
    matchIndex := 0
    snapshotIndex := 0
    lastSend := 0
    snapshotLastSend := 0
    recentRecv := false
    state := .probe }

/-- `progressAbortSnapshot` (progress.c:213). -/
def progressAbortSnapshot (p : Progress) : Progress :=
  { p with snapshotIndex := 0, state := .probe }

/-- `progressToProbe` (progress.c:314). -/
def progressToProbe (p : Progress) : Progress :=
  if p.state = .snapshot then
    { p with nextIndex := max (p.matchIndex + 1) p.snapshotIndex
             snapshotIndex := 0
             state := .probe }
  else
    { p with nextIndex := p.matchIndex + 1, state := .probe }

/-- `progressMaybeDecrement` (progress.c:226): the stale-rejection filter.
`last_index` is the follower's reported last log index from the
AppendEntries result; `log_last_index` is the leader's own
`logLastIndex(&r->log)`, read in the PIPELINE start-over branch. -/
def progressMaybeDecrement (p : Progress) (rejected last_index log_last_index : Nat) :
    Bool × Progress :=
  match p.state with
  | .snapshot =>
      if rejected ≠ p.snapshotIndex then (false, p)
      else (true, progressAbortSnapshot p)
  | .pipeline =>
      if rejected ≤ p.matchIndex then
        if last_index = 1 then (false, initProgress log_last_index)
        else (false, p)
      else
        (true, progressToProbe { p with nextIndex := min rejected (p.matchIndex + 1) })
  | .probe =>
      if rejected ≠ u64sub p.nextIndex 1 then (false, p)
      else (true, { p with nextIndex := min rejected (last_index + 1) })

/-- `progressMaybeUpdate` (progress.c:299). -/
def progressMaybeUpdate (p : Progress) (last_index : Nat) : Bool × Progress :=
  let (updated, p1) :=
    if p.matchIndex < last_index then (true, { p with matchIndex := last_index })
    else (false, p)
  let p2 :=
    if p1.nextIndex < last_index + 1 then { p1 with nextIndex := last_index + 1 }
    else p1
  (updated, p2)

/-- `progressToPipeline` (progress.c:331). -/
def progressToPipeline (p : Progress) : Progress :=
  { p with state := .pipeline }

/-- `progressSnapshotDone` (progress.c:337). -/
def progressSnapshotDone (p : Progress) : Bool :=
  p.snapshotIndex ≤ p.matchIndex

/-! ## Node state -/

/-- Node states (`RAFT_FOLLOWER`, `RAFT_CANDIDATE`, `RAFT_LEADER`,
`RAFT_UNAVAILABLE`). -/
inductive NodeState where
  | follower
  | candidate
  | leader
  | unavailable
  deriving DecidableEq, Repr

/-- The per-node state (`struct raft`), restricted to the fields read or
written by the verified operations.  The role-specific sub-objects are
flattened: `progress`, `reg`, `leaderChange`, `removedFromCluster`,
`promoteeId`, `removeId`, `promoteeRole` and the round fields belong to
`leader_state`; `currentLeaderId` is `follower_state.current_leader.id`.
`transfer` and `leaderChange` model the corresponding pointers being
non-NULL. -/
structure Raft where
  id : Nat
  state : NodeState
  currentTerm : Nat
  votedFor : Nat
  commitIndex : Nat
  lastApplied : Nat
  lastApplying : Nat
  lastStored : Nat
  log : RaftLog
  configuration : Configuration
  committedConfiguration : Configuration
  configurationIndex : Nat
  configurationUncommittedIndex : Nat
  progress : List Progress
  reg : List (Nat × EntryType)
  leaderChange : Bool
  removedFromCluster : Bool
  promoteeId : Nat
  removeId : Nat
  promoteeRole : Role
  roundNumber : Nat
  roundIndex : Nat
  roundStart : Nat
  currentLeaderId : Nat
  transfer : Bool
  removed : Bool
  role : Role
  electionTimerStart : Nat
  electionTimeout : Nat
  lastAppendTime : Nat
  lastAppendTerm : Nat
  deriving DecidableEq, Repr

/-- `progressMatchIndex` (progress.c:173). -/
def progressMatchIndex (r : Raft) (i : Nat) : Nat :=
  (r.progress.getD i (initProgress 0)).matchIndex

/-- `progressNextIndex` (progress.c:168). -/
def progressNextIndex (r : Raft) (i : Nat) : Nat :=
  (r.progress.getD i (initProgress 0)).nextIndex

/-! ## Leader-side quorum commit (src/replication.c) -/

/-- `replicationQuorum` (replication.c:2542): check whether a majority of
voters has `match_index ≥ index` and in that case set
`commit_index = min(index, last_stored)`.  The voter loop pairs each
configured server with its progress slot; the C code indexes both arrays
with the same `i`. -/
def replicationQuorum (r : Raft) (index : Nat) : Raft :=
  if index ≤ r.commitIndex then r
  else if logTermOf r.log index = 0 then r
  else
    let votes := (r.configuration.servers.zip r.progress).countP
      (fun sp => sp.1.role = .voter && index ≤ sp.2.matchIndex)
    if configurationVoterCount r.configuration / 2 < votes then
      { r with commitIndex := min index r.lastStored }
    else r

/-! ## Follower-side replication (src/replication.c) -/

/-- An AppendEntries request (`struct raft_append_entries`), with the
placement-group piggyback fields `pi.replicating` and `pi.time`. -/
structure AppendArgs where
  term : Nat
  prevLogIndex : Nat
  prevLogTerm : Nat
  entries : List Entry
  leaderCommit : Nat
  piReplicating : Nat
  piTime : Nat
  deriving DecidableEq, Repr

/-- Modelled from the spec: the placement-group round-begin marker
`PGREP_RND_BGN` (the pgrep header is not among the sources).  Only its
being distinct from 0 (`not replicating`) matters to the embedded code. -/
def PGREP_RND_BGN : Nat := 1

/-- `checkLogMatchingProperty` (replication.c:1373).  Returns 0 when the
check passes, 1 to reject, -1 on a conflict at or below `commit_index`
(shutdown). -/
def checkLogMatchingProperty (r : Raft) (args : AppendArgs) : Int :=
  if args.prevLogIndex = 0 then 0
  else
    let local_prev_term := logTermOf r.log args.prevLogIndex
    if local_prev_term = 0 then 1
    else if local_prev_term ≠ args.prevLogTerm then
      if args.prevLogIndex ≤ r.commitIndex then -1 else 1
    else 0

/-- Modelled from the spec: §4.7 step 4 / §4.9 (membership.c is not among
the sources): rolling back an uncommitted CHANGE restores the committed
configuration and clears `configuration_uncommitted_index`; it never
touches the log.  Returns the C status (always 0 here). -/
def membershipRollback (r : Raft) : Int × Raft :=
  (0, { r with configuration := r.committedConfiguration
               configurationUncommittedIndex := 0 })

/-- `deleteConflictingEntries` (replication.c:1419): walk the incoming
entries; at the first index whose local term conflicts, roll back an
uncommitted CHANGE at or above it, truncate the log from it, and pull
`last_stored` back; a conflict at or below `commit_index` is a shutdown.
Returns `(rv, i, r')` where `i` is the array index of the first new entry. -/
def deleteConflictingEntries (r : Raft) (args : AppendArgs) : Int × Nat × Raft :=
  go r 0 args.entries
where
  /-- The loop over `args->entries`, with `j` the current array index. -/
  go (r : Raft) (j : Nat) : List Entry → Int × Nat × Raft
  | [] => (0, j, r)
  | entry :: rest =>
      let entry_index := args.prevLogIndex + 1 + j
      let local_term := logTermOf r.log entry_index
      if local_term > 0 ∧ local_term ≠ entry.term then
        if entry_index ≤ r.commitIndex then (RAFT_SHUTDOWN, j, r)
        else
          let (rv, r1) :=
            if entry_index ≤ r.configurationUncommittedIndex then membershipRollback r
            else (0, r)
          if rv ≠ 0 then (rv, j, r1)
          else
            let r2 := { r1 with log := logTruncate r1.log entry_index }
            let r3 :=
              if entry_index ≤ r2.lastStored then { r2 with lastStored := entry_index - 1 }
              else r2
            (0, j, r3)
      else if local_term = 0 then (0, j, r)
      else go r (j + 1) rest

/-- `try_truncate` (replication.c:1479): roll back an uncommitted CHANGE at
or above `index`, then truncate the log from `index` unless some entry in
range is still referenced (`RAFT_LOG_BUSY`).  The C code passes the
`io->truncate` status through a variable it never assigns; the branch on
that indeterminate value is embedded as not taken. -/
def try_truncate (r : Raft) (index : Nat) : Int × Raft :=
  let (rv, r1) :=
    if index ≤ r.configurationUncommittedIndex then membershipRollback r
    else (0, r)
  if rv ≠ 0 then (rv, r1)
  else if logLastIndex r1.log < index then (0, r1)
  else if isRefs r1.log index then (RAFT_LOG_BUSY, r1)
  else (0, { r1 with log := logTruncate r1.log index })

/-- `sync_pgrep_index` (replication.c:1577): re-anchor the snapshot cursor
at the leader's `(prev_log_index, prev_log_term)`, take a pgrep snapshot
(outcome injected as `snapRv`; on failure the anchor is rolled back), then
reset `offset`, `last_stored`, `commit_index`, `last_applied` and
`last_applying` to `prev_log_index`. -/
def sync_pgrep_index (snapRv : Int) (r : Raft) (args : AppendArgs) : Int × Raft :=
  let last_index := r.log.snapLastIndex
  let last_term := r.log.snapLastTerm
  let configuration_index := r.configurationIndex
  let r1 := { r with
    log := { r.log with snapLastIndex := args.prevLogIndex
                        snapLastTerm := args.prevLogTerm }
    configurationIndex := 0 }
  if snapRv ≠ 0 then
    (snapRv, { r1 with
      log := { r1.log with snapLastIndex := last_index, snapLastTerm := last_term }
      configurationIndex := configuration_index })
  else
    (0, { r1 with
      log := { r1.log with offset := args.prevLogIndex }
      lastStored := args.prevLogIndex
      commitIndex := args.prevLogIndex
      lastApplied := args.prevLogIndex
      lastApplying := args.prevLogIndex })

/-- `checkPgreplicating` (replication.c:1615): gate and resynchronize a
placement-group replication stream.  `i`/`n` are the in/out parameters of
the C function (index of the first new entry and number of new entries);
`snapRv` injects the outcome of the pgrep snapshot inside
`sync_pgrep_index`.  Returns `(rv, async, i, n, r')`. -/
def checkPgreplicating (snapRv : Int) (r : Raft) (args : AppendArgs) (i n : Nat) :
    Int × Bool × Nat × Nat × Raft :=
  if args.piReplicating ≠ 0 then
    let r0 := if r.lastAppendTerm < args.term then { r with lastAppendTime := 0 } else r
    if args.piTime ≤ r0.lastAppendTime then (RAFT_DISCARD, true, i, n, r0)
    else
      let r1 := { r0 with lastAppendTime := args.piTime, lastAppendTerm := r0.currentTerm }
      if args.piReplicating = PGREP_RND_BGN then
        let trunc_index := max r1.lastApplied r1.lastApplying + 1
        let (rv, r2) := try_truncate r1 trunc_index
        if rv ≠ 0 then (rv, false, i, n, r2)
        else
          (0, false, i, n,
            { r2 with lastStored := trunc_index - 1, commitIndex := trunc_index - 1 })
      else
        let step : Int × Raft :=
          if r1.lastStored < args.prevLogIndex then
            if r1.lastApplying ≠ r1.lastApplied then (RAFT_APPLY_BUSY, r1)
            else
              let (rv, r2) := try_truncate r1 (r1.log.offset + 1)
              if rv ≠ 0 then (rv, r2)
              else sync_pgrep_index snapRv r2 args
          else (0, r1)
        let (rv, r3) := step
        if rv ≠ 0 then (rv, false, i, n, r3)
        else
          let i' := r3.lastStored - args.prevLogIndex
          let n' := args.entries.length - i'
          if args.prevLogIndex + args.entries.length ≤ r3.lastStored then
            (0, false, i', 0, r3)
          else (0, true, i', n', r3)
  else
    (0, true, i, n, { r with lastAppendTime := args.piTime, lastAppendTerm := r.currentTerm })

/-- The commit advance of the heartbeat path of `replicationAppend`
(replication.c:1798-1806): on an empty non-pgrep AppendEntries, when
`leader_commit > commit_index` or `leader_commit > last_applying`, set
`commit_index = min(leader_commit, last_stored)`. -/
def heartbeatCommitUpdate (r : Raft) (leader_commit : Nat) : Raft :=
  if r.commitIndex < leader_commit ∨ r.lastApplying < leader_commit then
    { r with commitIndex := min leader_commit r.lastStored }
  else r

/-- The commit advance of `appendFollowerCb` (replication.c:1312-1314): on
completion of the follower's disk write, when `leader_commit >
commit_index`, set `commit_index = min(leader_commit, last_stored)`. -/
def appendFollowerCommitUpdate (r : Raft) (leader_commit : Nat) : Raft :=
  if r.commitIndex < leader_commit then
    { r with commitIndex := min leader_commit r.lastStored }
  else r

/-- Outcome of the synchronous front of `replicationAppend`. -/
inductive AppendGate where
  /-- Reply `rejected = hint` (request refused, state unchanged). -/
  | reject (hint : Nat)
  /-- `RAFT_SHUTDOWN`: conflict with a committed entry. -/
  | shutdown
  /-- Log-matching passed; proceed with `i` the index of the first new
  entry in `args.entries` and the possibly-truncated state. -/
  | proceed (i : Nat) (r : Raft)
  deriving DecidableEq, Repr

/-- The synchronous front of `replicationAppend` (replication.c:1726-1779)
for a non-pgrep request: `*rejected` starts as `prev_log_index`, the
log-matching check either rejects with that hint or shuts down, then
conflicting entries are deleted and `*rejected` is cleared. -/
def replicationAppendGate (r : Raft) (args : AppendArgs) : AppendGate :=
  if args.piReplicating = 0 then
    let match_ := checkLogMatchingProperty r args
    if match_ = 1 then .reject args.prevLogIndex
    else if match_ = -1 then .shutdown
    else
      let (rv, i, r1) := deleteConflictingEntries r args
      if rv = RAFT_SHUTDOWN then .shutdown
      else .proceed i r1
  else .proceed 0 r

/-! ## Applying a committed CHANGE entry (src/replication.c) -/

/-- Modelled from the spec: §4.11 conversion → FOLLOWER (convert.c is not
among the sources): reset the candidate/leader sub-structures and clear
the pending transfer. -/
def convertToFollower (r : Raft) : Raft :=
  { r with state := .follower
           transfer := false
           leaderChange := false
           removedFromCluster := false
           promoteeId := 0
           removeId := 0
           progress := [] }

/-- Observable callbacks fired while applying a CHANGE entry, in order. -/
inductive ApplyEvent where
  /-- The node stepped down to FOLLOWER. -/
  | toFollower
  /-- The pending change request's callback fired. -/
  | changeCb
  deriving DecidableEq, Repr

/-- `applyChange` (replication.c:2262): commit a CHANGE entry at `index`.
Returns the new state together with the trace of callbacks, in the order
the C code performs them. -/
def applyChange (r : Raft) (index : Nat) : Raft × List ApplyEvent :=
  let r1 :=
    if r.configurationUncommittedIndex = index then
      { r with configurationUncommittedIndex := 0 }
    else r
  let r2 := { r1 with configurationIndex := index }
  if r2.state = .leader then
    let hadChange := r2.leaderChange
    let r3 := { r2 with leaderChange := false }
    let (r4, evs) :=
      if (configurationGet r3.configuration r3.id).isNone then
        ({ convertToFollower r3 with removed := true }, [ApplyEvent.toFollower])
      else (r3, [])
    if hadChange then (r4, evs ++ [ApplyEvent.changeCb]) else (r4, evs)
  else
    if (configurationGet r2.configuration r2.id).isNone then
      ({ r2 with removed := true }, [])
    else (r2, [])

/-! ## Leader query (src/state.c) -/

/-- `raft_leader` (state.c:12): the id reported through the out-parameter. -/
def raft_leader (r : Raft) : Nat :=
  match r.state with
  | .unavailable => 0
  | .candidate => 0
  | .follower => r.currentLeaderId
  | .leader => if r.transfer then 0 else r.id

/-! ## RequestVote receipt (src/recv.c, src/recv_request_vote.c) -/

/-- A RequestVote request (`struct raft_request_vote`). -/
structure RequestVote where
  term : Nat
  candidateId : Nat
  lastLogIndex : Nat
  lastLogTerm : Nat
  preVote : Bool
  disruptLeader : Bool
  deriving DecidableEq, Repr

/-- A RequestVote result as sent back (`struct raft_request_vote_result`). -/
structure RVReply where
  term : Nat
  voteGranted : Bool
  deriving DecidableEq, Repr

/-- `recvCheckMatchingTerms` (recv.c:267). -/
def recvCheckMatchingTerms (r : Raft) (term : Nat) : Int :=
  if term < r.currentTerm then -1
  else if r.currentTerm < term then 1
  else 0

/-- The environment of `recvRequestVote`: the outcomes of its two calls
into modules outside the sources.  `ensure` is `recvEnsureMatchingTerms`
(term reconciliation, possibly bumping the local term and stepping down),
returning `(rv, match, r')`; `ev` is `electionVote` (election.c),
returning `(rv, granted, r')`. -/
structure VoteEnv where
  ensure : Raft → Nat → Int × Int × Raft
  ev : Raft → RequestVote → Int × Bool × Raft

/-- The processing tail of `recvRequestVote`
(recv_request_vote.c:224-277): term reconciliation, the `match < 0`
rejection, and `electionVote`; the reply is `none` on an error return
(no message is sent). -/
def recvRequestVoteTail (env : VoteEnv) (r : Raft) (args : RequestVote) :
    Int × Option RVReply × Raft :=
  let (mrv, match_, r1) :=
    if args.preVote then (0, recvCheckMatchingTerms r args.term, r)
    else env.ensure r args.term
  if ¬args.preVote ∧ mrv ≠ 0 then (mrv, none, r1)
  else if match_ < 0 then (0, some ⟨r1.currentTerm, false⟩, r1)
  else
    let (erv, granted, r2) := env.ev r1 args
    if erv ≠ 0 then (erv, none, r2)
    else (0, some ⟨r2.currentTerm, granted⟩, r2)

/-- The disruption-protection guard of `recvRequestVote`
(recv_request_vote.c:214-217): the node is the leader, or a follower with
a recorded leader heard from within the election timeout. -/
def hasLeader (r : Raft) (now : Nat) : Prop :=
  r.state = .leader ∨
    (r.state = .follower ∧ r.currentLeaderId ≠ 0 ∧
      u64sub now r.electionTimerStart ≤ r.electionTimeout)

instance (r : Raft) (now : Nat) : Decidable (hasLeader r now) := by
  unfold hasLeader; infer_instance

/-- `recvRequestVote` (recv_request_vote.c:176, the synchronous variant):
reject without granting when the disruption guard holds and the request
does not carry `disrupt_leader`; otherwise process the vote normally.
The `io->send` of the reply is outside the node state. -/
def recvRequestVote (env : VoteEnv) (r : Raft) (now : Nat) (args : RequestVote) :
    Int × Option RVReply × Raft :=
  if hasLeader r now ∧ ¬args.disruptLeader then
    (0, some ⟨r.currentTerm, false⟩, r)
  else recvRequestVoteTail env r args

/-! ## Client API (src/client.c)

The fallible collaborator calls inside the client operations are injected
as parameters: `appendRv` is the status of the `logAppend*` call (NOMEM on
allocation failure; the spec's §7 guarantees no state corruption on that
failure), `regRv` the status of `requestRegEnqueue`, `trigRv` the status
of `replicationTrigger` (an I/O suspension point), and `rebuildOk` whether
the allocation inside `progressRebuildArray` succeeds. -/

/-- Modelled from the spec: `remove_at(index)` of §4.10 (the registry
holds at most one request per index here). -/
def requestRegDel (reg : List (Nat × EntryType)) (index : Nat) :
    List (Nat × EntryType) :=
  reg.filter (fun e => e.1 ≠ index)

/-- Modelled from the spec: §4.9 `membership.can_change(allow_joint)`
(membership.c is not among the sources): reject unless the node is the
leader, no transfer and no CHANGE is in flight, and the phase is NORMAL or
(when allowed) JOINT.  The spec names no code for the busy cases; `BUSY`
is used, and no claim depends on that choice. -/
def membershipCanChangeConfiguration (r : Raft) (allow_joint : Bool) : Int :=
  if r.state ≠ .leader ∨ r.transfer then RAFT_NOTLEADER
  else if r.leaderChange ∨ r.configurationUncommittedIndex ≠ 0 then RAFT_BUSY
  else if r.configuration.phase = .joint ∧ ¬allow_joint then RAFT_BUSY
  else 0

/-- `progressRebuildArray` (progress.c:56), allocation aside: the progress
slot of every server present in both configurations is preserved, the
slots of new servers are initialized. -/
def progressRebuildArray (r : Raft) (configuration : Configuration) : List Progress :=
  let last_index := logLastIndex r.log
  configuration.servers.map (fun s =>
    let j := configurationIndexOf r.configuration s.id
    if j < r.configuration.servers.length then
      r.progress.getD j (initProgress last_index)
    else initProgress last_index)

/-- Modelled from the spec: `append_configuration(conf)` of §4.1; the
encoded configuration is the payload of a CHANGE entry (the encoding
itself is outside the verified claims). -/
def logAppendConfiguration (l : RaftLog) (term : Nat) (_conf : Configuration) : RaftLog :=
  logAppend l term .change []

/-- `clientChangeConfiguration` (client.c:150): append a CHANGE entry with
the new configuration, rebuild the progress array, install the new
configuration object when it is not `&r->configuration` (`isSelfConf`
models that pointer comparison), trigger replication, and record the
uncommitted index.  On a trigger failure the entry is truncated; on a
rebuild failure the function returns with the entry still in the log. -/
def clientChangeConfiguration (appendRv : Int) (rebuildOk : Bool) (trigRv : Int)
    (isSelfConf : Bool) (r : Raft) (conf : Configuration) : Int × Raft :=
  let index := logLastIndex r.log + 1
  if appendRv ≠ 0 then (appendRv, r)
  else
    let r1 : Raft := { r with log := logAppendConfiguration r.log r.currentTerm conf }
    if ¬rebuildOk then (RAFT_NOMEM, r1)
    else
      let r2 : Raft := { r1 with progress := progressRebuildArray r1 conf }
      let r3 : Raft :=
        if ¬isSelfConf then
          let role :=
            if configurationIndexOf conf r2.id ≠ conf.servers.length then
              configurationServerRole conf r2.id
            else Role.standby
          { r2 with configuration := conf, role := role }
        else r2
      if trigRv ≠ 0 then (trigRv, { r3 with log := logTruncate r3.log index })
      else
        let r4 : Raft := { r3 with configurationUncommittedIndex := index }
        let server_index := configurationIndexOf r4.configuration r4.id
        let r5 : Raft :=
          if r4.state = .leader then
            if server_index = r4.configuration.servers.length then
              { r4 with removedFromCluster := true }
            else r4
          else r4
        (0, r5)

/-- `raft_apply` (client.c:21): append `bufs` as COMMAND entries, register
the request, trigger replication; roll the log and the registry back on
failure. -/
def raft_apply (appendRv regRv trigRv : Int) (r : Raft) (bufs : List (List Nat)) :
    Int × Raft :=
  if r.state ≠ .leader ∨ r.transfer ∨ r.removedFromCluster then (RAFT_NOTLEADER, r)
  else
    let index := logLastIndex r.log + 1
    if appendRv ≠ 0 then (appendRv, r)
    else
      let r1 := { r with log := logAppendCommands r.log r.currentTerm bufs }
      if regRv ≠ 0 then (regRv, { r1 with log := logDiscard r1.log index })
      else
        let r2 := { r1 with reg := r1.reg ++ [(index, EntryType.command)] }
        if trigRv ≠ 0 then
          (trigRv, { r2 with reg := requestRegDel r2.reg index
                             log := logDiscard r2.log index })
        else (0, r2)

/-- `raft_barrier` (client.c:90): append one BARRIER entry, register the
request, trigger replication; roll back on failure. -/
def raft_barrier (appendRv regRv trigRv : Int) (r : Raft) : Int × Raft :=
  if r.state ≠ .leader ∨ r.transfer then (RAFT_NOTLEADER, r)
  else
    let index := logLastIndex r.log + 1
    if appendRv ≠ 0 then (appendRv, r)
    else
      let r1 := { r with log := logAppend r.log r.currentTerm .barrier [] }
      if regRv ≠ 0 then (regRv, { r1 with log := logDiscard r1.log index })
      else
        let r2 := { r1 with reg := r1.reg ++ [(index, EntryType.barrier)] }
        if trigRv ≠ 0 then
          (trigRv, { r2 with reg := requestRegDel r2.reg index
                             log := logDiscard r2.log index })
        else (0, r2)

/-- `raft_assign` (client.c:416): reject bad roles, non-leaders, unknown
ids and no-op role changes before touching any state; then either submit
the configuration change immediately (restoring the role on failure) or
start a catch-up round for a promotee.  The C guard on the raw integer
role is subsumed by `Role`; `now` is `io->time`.  `replicationProgress`
in the catch-up path only emits a message and touches per-peer send
bookkeeping, which is not modelled here. -/
def raft_assign (appendRv : Int) (rebuildOk : Bool) (trigRv : Int)
    (r : Raft) (sid : Nat) (role : Role) (now : Nat) : Int × Raft :=
  let crv := membershipCanChangeConfiguration r false
  if crv ≠ 0 then (crv, r)
  else
    match configurationGet r.configuration sid with
    | none => (RAFT_NOTFOUND, r)
    | some server =>
      if server.role = role then (RAFT_BADROLE, r)
      else
        let server_index := configurationIndexOf r.configuration sid
        let last_index := logLastIndex r.log
        let r1 := { r with leaderChange := true }
        if (role ≠ .voter ∧ role ≠ .logger) ∨ progressMatchIndex r1 server_index = last_index then
          let old_role := server.role
          let conf' := { r1.configuration with
            servers := r1.configuration.servers.set server_index { server with role := role } }
          let r2 := { r1 with configuration := conf' }
          let (rv, r3) := clientChangeConfiguration appendRv rebuildOk trigRv true r2 r2.configuration
          if rv ≠ 0 then
            (rv, { r3 with configuration := { r3.configuration with
              servers := r3.configuration.servers.set server_index
                { server with role := old_role } } })
          else (0, r3)
        else
          (0, { r1 with promoteeId := server.id
                        promoteeRole := role
                        roundNumber := 1
                        roundIndex := last_index
                        roundStart := now })

/-- Modelled from the spec: `raft_configuration_add` of §4.2: inserting a
server fails with `BADID` on id 0 and `DUPLICATEID` when the id exists;
new servers join the OLD group (as in the repository's unit tests). -/
def raft_configuration_add (c : Configuration) (sid : Nat) (role : Role) :
    Int × Configuration :=
  if sid = 0 then (RAFT_BADID, c)
  else if c.servers.any (fun s => s.id = sid) then (RAFT_DUPLICATEID, c)
  else (0, { c with servers := c.servers ++ [⟨sid, role, role, RAFT_GROUP_OLD⟩] })

/-- `raft_add` (client.c:222): copy the configuration, insert the new
server as SPARE, submit the CHANGE. -/
def raft_add (appendRv : Int) (rebuildOk : Bool) (trigRv : Int)
    (r : Raft) (sid : Nat) : Int × Raft :=
  let crv := membershipCanChangeConfiguration r false
  if crv ≠ 0 then (crv, r)
  else
    let (arv, conf') := raft_configuration_add r.configuration sid .spare
    if arv ≠ 0 then (arv, r)
    else
      let (rv, r1) := clientChangeConfiguration appendRv rebuildOk trigRv false r conf'
      if rv ≠ 0 then (rv, r1)
      else (0, { r1 with leaderChange := true })

/-- Modelled from the spec: `remove(id)` of §4.2: drop the server from the
list. -/
def configurationRemove (c : Configuration) (sid : Nat) : Configuration :=
  { c with servers := c.servers.filter (fun s => s.id ≠ sid) }

/-- Modelled from the spec: `joint_to_normal(target_group)` of §4.2:
collapse a JOINT configuration to NORMAL, keeping the servers of the
target group with their new roles. -/
def configurationJointToNormal (c : Configuration) (group : Nat) : Configuration :=
  { servers := (c.servers.filter (fun s => s.group &&& group ≠ 0)).map
      (fun s => { s with role := s.roleNew, group := RAFT_GROUP_OLD })
    phase := .normal }

/-- `copyJointRemoveConfiguration` (client.c:514): collapse to the group
not containing `id`. -/
def copyJointRemoveConfiguration (r : Raft) (sid : Nat) : Configuration :=
  let group :=
    match configurationGet r.configuration sid with
    | some server => if server.group &&& RAFT_GROUP_NEW ≠ 0 then RAFT_GROUP_OLD
                     else RAFT_GROUP_NEW
    | none => RAFT_GROUP_NEW
  configurationJointToNormal r.configuration group

/-- `raft_remove` (client.c:533): reject unknown ids with `BADID`; in
JOINT phase collapse to the group not containing the target, otherwise
remove from a copy; then submit the CHANGE. -/
def raft_remove (appendRv : Int) (rebuildOk : Bool) (trigRv : Int)
    (r : Raft) (sid : Nat) : Int × Raft :=
  let joint := r.configuration.phase = .joint
  let crv := membershipCanChangeConfiguration r joint
  if crv ≠ 0 then (crv, r)
  else
    match configurationGet r.configuration sid with
    | none => (RAFT_BADID, r)
    | some _ =>
      let conf' :=
        if r.configuration.phase = .joint then
          configurationRemove (copyJointRemoveConfiguration r sid) sid
        else configurationRemove r.configuration sid
      let (rv, r1) := clientChangeConfiguration appendRv rebuildOk trigRv false r conf'
      if rv ≠ 0 then (rv, r1)
      else (0, { r1 with leaderChange := true })

/-! ## Concrete states used by witnesses and counterexamples -/

/-- A quiescent follower with an empty log, used as the base of the
concrete states below. -/
def raft0 : Raft :=
  { id := 1
    state := .follower
    currentTerm := 0
    votedFor := 0
    commitIndex := 0
    lastApplied := 0
    lastApplying := 0
    lastStored := 0
    log := { offset := 0, snapLastIndex := 0, snapLastTerm := 0, entries := [], refs := [] }
    configuration := { servers := [], phase := .normal }
    committedConfiguration := { servers := [], phase := .normal }
    configurationIndex := 0
    configurationUncommittedIndex := 0
    progress := []
    reg := []
    leaderChange := false
    removedFromCluster := false
    promoteeId := 0
    removeId := 0
    promoteeRole := .standby
    roundNumber := 0
    roundIndex := 0
    roundStart := 0
    currentLeaderId := 0
    transfer := false
    removed := false
    role := .voter
    electionTimerStart := 0
    electionTimeout := 1000
    lastAppendTime := 0
    lastAppendTerm := 0 }

/-- A leader at term 2 whose log holds a single entry from term 1,
replicated on its only voter but not yet committed. -/
def cexPriorTerm : Raft :=
  { raft0 with
    state := .leader
    currentTerm := 2
    lastStored := 1
    log := { offset := 0, snapLastIndex := 0, snapLastTerm := 0
             entries := [⟨1, .command, []⟩], refs := [] }
    configuration := { servers := [⟨1, .voter, .voter, RAFT_GROUP_OLD⟩], phase := .normal }
    progress := [{ initProgress 1 with matchIndex := 1 }] }

/-- A leader in a JOINT configuration: OLD voters {1,2,3}, NEW voters
{3,4,5}; index 1 is matched by servers 1, 2 and 3 only. -/
def cexJoint : Raft :=
  { raft0 with
    state := .leader
    currentTerm := 1
    lastStored := 1
    log := { offset := 0, snapLastIndex := 0, snapLastTerm := 0
             entries := [⟨1, .command, []⟩], refs := [] }
    configuration :=
      { servers :=
          [⟨1, .voter, .voter, RAFT_GROUP_OLD⟩,
           ⟨2, .voter, .voter, RAFT_GROUP_OLD⟩,
           ⟨3, .voter, .voter, RAFT_GROUP_OLD ||| RAFT_GROUP_NEW⟩,
           ⟨4, .voter, .voter, RAFT_GROUP_NEW⟩,
           ⟨5, .voter, .voter, RAFT_GROUP_NEW⟩]
        phase := .joint }
    progress :=
      [{ initProgress 1 with matchIndex := 1 },
       { initProgress 1 with matchIndex := 1 },
       { initProgress 1 with matchIndex := 1 },
       { initProgress 1 with matchIndex := 0 },
       { initProgress 1 with matchIndex := 0 }] }

/-- A PIPELINE progress entry used to exhibit the start-over branch. -/
def cexPipeline : Progress :=
  { nextIndex := 6, matchIndex := 5, snapshotIndex := 0
    lastSend := 9, snapshotLastSend := 4, recentRecv := true, state := .pipeline }

/-- A second PIPELINE progress entry for the match-index regression. -/
def cexPipeline2 : Progress :=
  { nextIndex := 10, matchIndex := 7, snapshotIndex := 2
    lastSend := 0, snapshotLastSend := 0, recentRecv := false, state := .pipeline }

/-- A follower that has committed up to index 5 but applied only up to
index 3, receiving a pgrep round-begin message. -/
def cexPgrep : Raft :=
  { raft0 with
    currentTerm := 1
    commitIndex := 5
    lastStored := 5
    lastApplied := 3
    lastApplying := 3
    log := { offset := 0, snapLastIndex := 0, snapLastTerm := 0
             entries := [⟨1, .command, []⟩, ⟨1, .command, []⟩, ⟨1, .command, []⟩,
                         ⟨1, .command, []⟩, ⟨1, .command, []⟩]
             refs := [] } }

/-- The pgrep round-begin AppendEntries received by `cexPgrep`. -/
def cexPgrepArgs : AppendArgs :=
  { term := 1, prevLogIndex := 5, prevLogTerm := 1, entries := []
    leaderCommit := 5, piReplicating := PGREP_RND_BGN, piTime := 10 }

/-- A leader at term 1 that is absent from the committed configuration,
with a pending change request. -/
def cexRemovedLeader : Raft :=
  { raft0 with
    state := .leader
    leaderChange := true
    configurationUncommittedIndex := 1
    configuration := { servers := [⟨2, .voter, .voter, RAFT_GROUP_OLD⟩], phase := .normal } }

/-- A trivial environment for the witness: term reconciliation and
election vote leave the state unchanged. -/
def voteEnv0 : VoteEnv :=
  { ensure := fun r _ => (0, 0, r)
    ev := fun r _ => (0, false, r) }

/-- A RequestVote without the disruption flag. -/
def cexVoteArgs : RequestVote :=
  { term := 5, candidateId := 2, lastLogIndex := 0, lastLogTerm := 0
    preVote := false, disruptLeader := false }

/-- A follower holding two committed entries of term 1. -/
def cexFollowerLog : Raft :=
  { raft0 with
    currentTerm := 2
    commitIndex := 2
    lastStored := 2
    log := { offset := 0, snapLastIndex := 0, snapLastTerm := 0
             entries := [⟨1, .command, []⟩, ⟨1, .command, []⟩], refs := [] } }

/-- An AppendEntries whose previous entry conflicts above the commit
index of `cexFollowerLog2`. -/
def cexMismatchArgs : AppendArgs :=
  { term := 2, prevLogIndex := 3, prevLogTerm := 2, entries := []
    leaderCommit := 2, piReplicating := 0, piTime := 0 }

/-- The client-visible pre-append rejection codes of the claim. -/
def rejectCode (e : Int) : Prop :=
  e = RAFT_NOTLEADER ∨ e = RAFT_BADROLE ∨ e = RAFT_BADID ∨
  e = RAFT_NOTFOUND ∨ e = RAFT_DUPLICATEID

instance (e : Int) : Decidable (rejectCode e) := by
  unfold rejectCode; infer_instance

/-- A leader of a single-voter cluster available for configuration
changes. -/
def cexAddLeader : Raft :=
  { raft0 with
    state := .leader
    configuration := { servers := [⟨1, .voter, .voter, RAFT_GROUP_OLD⟩], phase := .normal }
    progress := [initProgress 0] }

theorem u64sub_of_le {a b : Nat} (hb : b ≤ a) (ha : a < U64MOD) :
    u64sub a b = a - b := by
  unfold u64sub
  have h1 : a + U64MOD - b = (a - b) + U64MOD := by omega
  rw [h1, Nat.add_mod_right, Nat.mod_eq_of_lt (by omega)]

/-! ## C10 -/

/-- C10: `raft_leader` reports id 0 in the CANDIDATE and UNAVAILABLE
states and for a LEADER with a leadership transfer in progress; a LEADER
with no pending transfer reports its own id, and a FOLLOWER reports its
recorded current leader id. -/
theorem raft_leader_spec (r : Raft) :
    (r.state = .candidate → raft_leader r = 0) ∧
    (r.state = .unavailable → raft_leader r = 0) ∧
    (r.state = .leader → r.transfer = true → raft_leader r = 0) ∧
    (r.state = .leader → r.transfer = false → raft_leader r = r.id) ∧
    (r.state = .follower → raft_leader r = r.currentLeaderId) := by
  unfold raft_leader
  refine ⟨fun h => by rw [h], fun h => by rw [h], fun h ht => by rw [h]; simp [ht],
          fun h ht => by rw [h]; simp [ht], fun h => by rw [h]⟩

/-- Witness for C10 at a concrete candidate state. -/
theorem raft_leader_spec_witness :
    raft_leader { raft0 with state := .candidate } = 0 :=
  (raft_leader_spec { raft0 with state := .candidate }).1 rfl

/-! ## C1 -/

/-- C1 (failing input): at `cexPriorTerm` the entry at index 1 carries
term 1 while `current_term` is 2, yet `replicationQuorum` advances
`commit_index` from 0 to 1 on a bare voter majority: the code never
compares `log.term_of(N)` against `current_term`, contrary to the quorum
rule of the spec. -/
theorem replicationQuorum_commits_prior_term_entry :
    logTermOf cexPriorTerm.log 1 = 1 ∧
    cexPriorTerm.currentTerm = 2 ∧
    cexPriorTerm.commitIndex = 0 ∧
    (replicationQuorum cexPriorTerm 1).commitIndex = 1 := by
  refine ⟨rfl, rfl, rfl, ?_⟩
  decide

/-! ## C2 -/

/-- C2 (failing input): at `cexJoint` (JOINT phase) the NEW group has 3
voters of which only one has `match_index ≥ 1`, so it has no strict
majority; still `replicationQuorum` advances `commit_index` to 1 because
it counts a single majority over all voters of both groups. -/
theorem replicationQuorum_ignores_joint_groups :
    cexJoint.configuration.phase = .joint ∧
    (cexJoint.configuration.servers.zip cexJoint.progress).countP
        (fun sp => sp.1.role = .voter && sp.1.group &&& RAFT_GROUP_NEW ≠ 0 &&
                   1 ≤ sp.2.matchIndex) = 1 ∧
    cexJoint.configuration.servers.countP
        (fun s => s.role = .voter && s.group &&& RAFT_GROUP_NEW ≠ 0) = 3 ∧
    cexJoint.commitIndex = 0 ∧
    (replicationQuorum cexJoint 1).commitIndex = 1 := by
  refine ⟨rfl, by decide, by decide, rfl, by decide⟩

/-! ## C4 -/

/-- C4 (counterexample): in PIPELINE a stale rejection (`rejected ≤
match_index`) whose result reports `last_log_index == 1` is ignored
(returns false) but does NOT leave the progress entry unchanged: the
entry is reinitialized from the leader log. -/
theorem maybeDecrement_ignored_rejection_mutates :
    (progressMaybeDecrement cexPipeline 3 1 7).1 = false ∧
    (progressMaybeDecrement cexPipeline 3 1 7).2 ≠ cexPipeline := by
  decide

/-- C4 (amended): full per-state characterization of
`progressMaybeDecrement`, including the PIPELINE start-over exception:
SNAPSHOT accepts exactly on `rejected == snapshot_index` and moves to
PROBE; PIPELINE ignores `rejected ≤ match_index` (reinitializing the
whole entry when the reported `last_log_index` is 1) and otherwise sets
`next_index = min(rejected, match_index+1)` and moves to PROBE; PROBE
ignores unless `rejected == next_index − 1` and otherwise sets
`next_index = min(rejected, last_log_index+1)`. -/
theorem maybeDecrement_spec (p : Progress) (rejected li ll : Nat) :
    (p.state = .snapshot →
      (rejected ≠ p.snapshotIndex → progressMaybeDecrement p rejected li ll = (false, p)) ∧
      (rejected = p.snapshotIndex →
        progressMaybeDecrement p rejected li ll = (true, progressAbortSnapshot p))) ∧
    (p.state = .pipeline →
      (rejected ≤ p.matchIndex →
        (progressMaybeDecrement p rejected li ll).1 = false ∧
        (li ≠ 1 → progressMaybeDecrement p rejected li ll = (false, p)) ∧
        (li = 1 → progressMaybeDecrement p rejected li ll = (false, initProgress ll))) ∧
      (p.matchIndex < rejected →
        progressMaybeDecrement p rejected li ll =
          (true, progressToProbe { p with nextIndex := min rejected (p.matchIndex + 1) }))) ∧
    (p.state = .probe → 1 ≤ p.nextIndex → p.nextIndex < U64MOD →
      (rejected ≠ p.nextIndex - 1 → progressMaybeDecrement p rejected li ll = (false, p)) ∧
      (rejected = p.nextIndex - 1 →
        progressMaybeDecrement p rejected li ll =
          (true, { p with nextIndex := min rejected (li + 1) }))) := by
  obtain ⟨ni, mi, si, ls, sls, rr, st⟩ := p
  refine ⟨?_, ?_, ?_⟩ <;> intro h <;> subst h
  · constructor
    · intro hne; simp [progressMaybeDecrement, hne]
    · intro he; simp [progressMaybeDecrement, he]
  · constructor
    · intro hle
      refine ⟨?_, ?_, ?_⟩
      · simp only [progressMaybeDecrement]
        by_cases h1 : li = 1 <;> simp [hle, h1]
      · intro h1; simp [progressMaybeDecrement, hle, h1]
      · intro h1; simp [progressMaybeDecrement, hle, h1]
    · intro hlt
      simp [progressMaybeDecrement, Nat.not_le.mpr hlt]
  · intro h1 h2
    have hu : u64sub ni 1 = ni - 1 := u64sub_of_le h1 h2
    constructor
    · intro hne
      have hne' : rejected ≠ u64sub ni 1 := by rw [hu]; exact hne
      simp [progressMaybeDecrement, hne']
    · intro he
      have he' : ¬(rejected ≠ u64sub ni 1) := by rw [hu]; simpa using he
      simp [progressMaybeDecrement, he']

/-- Witness for C4 at concrete inputs: a PROBE entry accepting the
matching rejection. -/
theorem maybeDecrement_spec_witness :
    progressMaybeDecrement (initProgress 4) 4 4 9 =
      (true, { initProgress 4 with nextIndex := 4 }) := by
  have h := (maybeDecrement_spec (initProgress 4) 4 4 9).2.2 rfl (by decide) (by decide)
  simpa using h.2 (by decide)

/-! ## C5 -/

/-- C5 (counterexample): the PIPELINE start-over branch of
`progressMaybeDecrement` lowers `match_index` from 7 to 0, so
`match_index` is not monotone across out-of-order responses. -/
theorem maybeDecrement_lowers_match_index :
    cexPipeline2.matchIndex = 7 ∧
    (progressMaybeDecrement cexPipeline2 4 1 9).2.matchIndex = 0 := by
  decide

/-- C5 (amended): `progressMaybeUpdate` only raises `match_index` and
returns true exactly when it strictly increased; `progressMaybeDecrement`
leaves `match_index` unchanged in every branch EXCEPT the PIPELINE
stale-rejection branch with reported `last_log_index == 1`, which resets
the whole progress entry (so `match_index` falls back to 0). -/
theorem match_index_monotone (p : Progress) (li rejected ll : Nat) :
    p.matchIndex ≤ (progressMaybeUpdate p li).2.matchIndex ∧
    ((progressMaybeUpdate p li).1 = true ↔
      p.matchIndex < (progressMaybeUpdate p li).2.matchIndex) ∧
    (¬(p.state = .pipeline ∧ rejected ≤ p.matchIndex ∧ li = 1) →
      (progressMaybeDecrement p rejected li ll).2.matchIndex = p.matchIndex) := by
  obtain ⟨ni, mi, si, ls, sls, rr, st⟩ := p
  refine ⟨?_, ?_, ?_⟩
  · by_cases h : mi < li <;> by_cases h2 : ni < li + 1 <;>
      simp [progressMaybeUpdate, h, h2]
    all_goals omega
  · by_cases h : mi < li <;> by_cases h2 : ni < li + 1 <;>
      simp [progressMaybeUpdate, h, h2]
  · intro hni
    cases st <;> simp only [progressMaybeDecrement]
    · by_cases h : rejected ≠ u64sub ni 1 <;> simp [h]
    · by_cases h : rejected ≤ mi
      · have h1 : li ≠ 1 := by
          intro hli; exact hni ⟨rfl, h, hli⟩
        simp [h, h1]
      · simp [h, progressToProbe]
    · by_cases h : rejected ≠ si <;> simp [h, progressAbortSnapshot]

/-- Witness for C5 at concrete inputs. -/
theorem match_index_monotone_witness :
    (progressMaybeDecrement (initProgress 3) 3 3 9).2.matchIndex =
      (initProgress 3).matchIndex :=
  (match_index_monotone (initProgress 3) 3 3 9).2.2 (by decide)

/-! ## C3 -/

/-- C3 (counterexample): the pgrep round-begin path of
`checkPgreplicating` truncates the log to `max(last_applied,
last_applying) + 1` and rewinds `commit_index` from 5 to 3, so
`commit_index` is not monotone over the pgrep catch-up operations. -/
theorem checkPgreplicating_rewinds_commit_index :
    cexPgrep.commitIndex = 5 ∧
    (checkPgreplicating 0 cexPgrep cexPgrepArgs 0 0).2.2.2.2.commitIndex = 3 := by
  constructor
  · rfl
  · decide

/-- C3 (amended): `commit_index` is non-decreasing under the leader
quorum step and under the follower write-completion commit update
(assuming the (S1) invariant `commit_index ≤ last_stored`); the pgrep
catch-up paths (`checkPgreplicating` at round begin and
`sync_pgrep_index`) and the stale-heartbeat re-apply branch of the
follower path rewind it deliberately during resynchronization. -/
theorem commit_index_monotone (r : Raft) (index lc : Nat)
    (h : r.commitIndex ≤ r.lastStored) :
    r.commitIndex ≤ (replicationQuorum r index).commitIndex ∧
    r.commitIndex ≤ (appendFollowerCommitUpdate r lc).commitIndex := by
  constructor
  · simp only [replicationQuorum]
    split_ifs with h1 h2 h3
    · exact Nat.le_refl _
    · exact Nat.le_refl _
    · show r.commitIndex ≤ min index r.lastStored
      omega
    · exact Nat.le_refl _
  · simp only [appendFollowerCommitUpdate]
    split_ifs with h1
    · show r.commitIndex ≤ min lc r.lastStored
      omega
    · exact Nat.le_refl _

/-- Witness for C3 at the quiescent state. -/
theorem commit_index_monotone_witness :
    raft0.commitIndex ≤ (replicationQuorum raft0 0).commitIndex :=
  (commit_index_monotone raft0 0 0 (Nat.le_refl 0)).1

/-! ## C7 -/

/-- C7: applying a committed CHANGE at index `i` clears
`configuration_uncommitted_index` exactly when it equals `i`, sets
`configuration_index` to `i`, marks a node absent from the configuration
as removed, and converts a removed leader to FOLLOWER before firing the
pending change callback (the trace lists the callbacks in order). -/
theorem applyChange_spec (r : Raft) (index : Nat) :
    (applyChange r index).1.configurationIndex = index ∧
    (r.configurationUncommittedIndex = index →
      (applyChange r index).1.configurationUncommittedIndex = 0) ∧
    (r.configurationUncommittedIndex ≠ index →
      (applyChange r index).1.configurationUncommittedIndex =
        r.configurationUncommittedIndex) ∧
    ((configurationGet r.configuration r.id).isNone = true →
      (applyChange r index).1.removed = true) ∧
    (r.state = .leader → (configurationGet r.configuration r.id).isNone = true →
      (applyChange r index).1.state = .follower) ∧
    (r.state = .leader → (configurationGet r.configuration r.id).isNone = true →
      r.leaderChange = true →
      (applyChange r index).2 = [ApplyEvent.toFollower, ApplyEvent.changeCb]) := by
  unfold applyChange convertToFollower
  by_cases h1 : r.configurationUncommittedIndex = index <;>
    by_cases h2 : r.state = .leader <;>
    by_cases h3 : (configurationGet r.configuration r.id).isNone = true <;>
    by_cases h4 : r.leaderChange = true <;>
    simp [h1, h2, h3, h4]

/-- Witness for C7: the removed leader steps down before its change
callback fires. -/
theorem applyChange_spec_witness :
    (applyChange cexRemovedLeader 1).2 = [ApplyEvent.toFollower, ApplyEvent.changeCb] :=
  (applyChange_spec cexRemovedLeader 1).2.2.2.2.2 rfl (by decide) rfl

/-! ## C9 -/

/-- C9: a node that currently has a live leader (the disruption guard of
`recvRequestVote`) replies without granting the vote and without touching
its state unless the request carries `disrupt_leader`; with the flag set
the request is processed exactly as when there is no live leader, for
every behavior of the term-reconciliation and vote helpers. -/
theorem recvRequestVote_disruption (env : VoteEnv) (r : Raft) (now : Nat)
    (args : RequestVote) :
    (hasLeader r now → args.disruptLeader = false →
      recvRequestVote env r now args = (0, some ⟨r.currentTerm, false⟩, r)) ∧
    (args.disruptLeader = true →
      recvRequestVote env r now args = recvRequestVoteTail env r args) := by
  constructor
  · intro hl hd
    unfold recvRequestVote
    rw [if_pos ⟨hl, by simp [hd]⟩]
  · intro hd
    unfold recvRequestVote
    rw [if_neg (by simp [hd])]

/-- Witness for C9: a leader ignores a non-disrupting RequestVote. -/
theorem recvRequestVote_disruption_witness :
    recvRequestVote voteEnv0 { raft0 with state := .leader } 0 cexVoteArgs =
      (0, some ⟨0, false⟩, { raft0 with state := .leader }) :=
  (recvRequestVote_disruption voteEnv0 { raft0 with state := .leader } 0
    cexVoteArgs).1 (Or.inl rfl) rfl

/-! ## C6 -/

theorem logTermOf_truncate_of_lt (l : RaftLog) (e k : Nat) (hk : k < e) :
    logTermOf (logTruncate l e) k = logTermOf l k := by
  unfold logTermOf logTruncate
  by_cases h1 : k = l.snapLastIndex
  · simp [h1]
  · by_cases h2 : l.offset < k
    · simp only [h1, if_false, h2, if_true]
      rw [List.get?_take (by omega)]
    · simp [h1, h2]

/-- The conflict walk never touches the state on a shutdown return and
always preserves the log at or below `commit_index`. -/
theorem deleteConflicting_go_preserved (args : AppendArgs) (r : Raft) :
    ∀ (es : List Entry) (j : Nat),
      ((deleteConflictingEntries.go args r j es).1 = RAFT_SHUTDOWN →
        (deleteConflictingEntries.go args r j es).2.2 = r) ∧
      (∀ k, k ≤ r.commitIndex →
        logTermOf ((deleteConflictingEntries.go args r j es).2.2).log k =
          logTermOf r.log k) := by
  intro es
  induction es with
  | nil =>
    intro j
    exact ⟨fun _ => rfl, fun _ _ => rfl⟩
  | cons e rest ih =>
    intro j
    simp only [deleteConflictingEntries.go]
    by_cases hc : logTermOf r.log (args.prevLogIndex + 1 + j) > 0 ∧
        logTermOf r.log (args.prevLogIndex + 1 + j) ≠ e.term
    · rw [if_pos hc]
      by_cases hci : args.prevLogIndex + 1 + j ≤ r.commitIndex
      · rw [if_pos hci]
        exact ⟨fun _ => rfl, fun _ _ => rfl⟩
      · rw [if_neg hci]
        by_cases hr : args.prevLogIndex + 1 + j ≤ r.configurationUncommittedIndex <;>
          [rw [if_pos hr]; rw [if_neg hr]] <;>
          simp only [membershipRollback] <;>
          rw [if_neg (by decide : ¬((0 : Int) ≠ 0))] <;>
          refine ⟨fun h => absurd (show (0 : Int) = RAFT_SHUTDOWN from h) (by decide),
                  fun k hk => ?_⟩ <;>
          { split <;> exact logTermOf_truncate_of_lt _ _ _ (by omega) }
    · rw [if_neg hc]
      by_cases h0 : logTermOf r.log (args.prevLogIndex + 1 + j) = 0
      · rw [if_pos h0]
        exact ⟨fun h => absurd (show (0 : Int) = RAFT_SHUTDOWN from h) (by decide),
               fun _ _ => rfl⟩
      · rw [if_neg h0]
        exact ih (j + 1)

/-- When the first conflicting incoming entry sits at or below
`commit_index`, the conflict walk returns `RAFT_SHUTDOWN`. -/
theorem deleteConflicting_go_shutdown (args : AppendArgs) (r : Raft) :
    ∀ (es : List Entry) (j0 m : Nat), m < es.length →
      (∀ k, k < m → logTermOf r.log (args.prevLogIndex + 1 + (j0 + k)) ≠ 0 ∧
        logTermOf r.log (args.prevLogIndex + 1 + (j0 + k)) =
          (es.getD k ⟨0, .command, []⟩).term) →
      logTermOf r.log (args.prevLogIndex + 1 + (j0 + m)) ≠ 0 →
      logTermOf r.log (args.prevLogIndex + 1 + (j0 + m)) ≠
        (es.getD m ⟨0, .command, []⟩).term →
      args.prevLogIndex + 1 + (j0 + m) ≤ r.commitIndex →
      (deleteConflictingEntries.go args r j0 es).1 = RAFT_SHUTDOWN := by
  intro es
  induction es with
  | nil =>
    intro j0 m hm
    simp at hm
  | cons e rest ih =>
    intro j0 m hm hpre hne hconf hle
    simp only [deleteConflictingEntries.go]
    cases m with
    | zero =>
      rw [if_pos ⟨Nat.pos_of_ne_zero (by simpa using hne), by simpa using hconf⟩,
          if_pos (by simpa using hle)]
    | succ m' =>
      have h0 := hpre 0 (Nat.succ_pos _)
      simp only [Nat.add_zero, List.getD_cons_zero] at h0
      rw [if_neg (by simp [h0.2]), if_neg h0.1]
      refine ih (j0 + 1) m' (by simpa using hm) (fun k hk => ?_) ?_ ?_ ?_
      · have h := hpre (k + 1) (by omega)
        have he : j0 + 1 + k = j0 + (k + 1) := by omega
        rw [he]
        simpa using h
      · have he : j0 + 1 + m' = j0 + (m' + 1) := by omega
        rw [he]
        exact hne
      · have he : j0 + 1 + m' = j0 + (m' + 1) := by omega
        rw [he]
        simpa using hconf
      · have he : j0 + 1 + m' = j0 + (m' + 1) := by omega
        rw [he]
        exact hle

/-- C6: on AppendEntries, a log-matching failure at `prev_log_index > 0`
above `commit_index` (missing entry or term mismatch) is rejected with
`prev_log_index` as the hint; a term conflict at or below `commit_index`
— at `prev_log_index` or at an incoming entry (the first conflicting one)
— yields `RAFT_SHUTDOWN`; a shutdown from the conflict walk leaves the
state untouched, and the walk never changes the log at or below
`commit_index`. -/
theorem append_conflict_safety (r : Raft) (args : AppendArgs)
    (hpg : args.piReplicating = 0) :
    (0 < args.prevLogIndex →
      logTermOf r.log args.prevLogIndex ≠ args.prevLogTerm →
      (logTermOf r.log args.prevLogIndex = 0 ∨ r.commitIndex < args.prevLogIndex) →
      replicationAppendGate r args = .reject args.prevLogIndex) ∧
    (0 < args.prevLogIndex →
      logTermOf r.log args.prevLogIndex ≠ 0 →
      logTermOf r.log args.prevLogIndex ≠ args.prevLogTerm →
      args.prevLogIndex ≤ r.commitIndex →
      replicationAppendGate r args = .shutdown) ∧
    ((deleteConflictingEntries r args).1 = RAFT_SHUTDOWN →
      (deleteConflictingEntries r args).2.2 = r) ∧
    (∀ k, k ≤ r.commitIndex →
      logTermOf ((deleteConflictingEntries r args).2.2).log k = logTermOf r.log k) ∧
    (∀ m, m < args.entries.length →
      (∀ k, k < m → logTermOf r.log (args.prevLogIndex + 1 + k) ≠ 0 ∧
        logTermOf r.log (args.prevLogIndex + 1 + k) =
          (args.entries.getD k ⟨0, .command, []⟩).term) →
      logTermOf r.log (args.prevLogIndex + 1 + m) ≠ 0 →
      logTermOf r.log (args.prevLogIndex + 1 + m) ≠
        (args.entries.getD m ⟨0, .command, []⟩).term →
      args.prevLogIndex + 1 + m ≤ r.commitIndex →
      (deleteConflictingEntries r args).1 = RAFT_SHUTDOWN) := by
  have hgo : deleteConflictingEntries r args =
      deleteConflictingEntries.go args r 0 args.entries := rfl
  have hcheck : ∀ (hp : 0 < args.prevLogIndex),
      logTermOf r.log args.prevLogIndex ≠ args.prevLogTerm →
      (logTermOf r.log args.prevLogIndex = 0 ∨ r.commitIndex < args.prevLogIndex) →
      checkLogMatchingProperty r args = 1 := by
    intro hp hne hcase
    unfold checkLogMatchingProperty
    rw [if_neg (by omega)]
    by_cases h0 : logTermOf r.log args.prevLogIndex = 0
    · simp [h0]
    · rcases hcase with h | h
      · exact absurd h h0
      · simp [h0, hne, Nat.not_le.mpr h]
  refine ⟨?_, ?_, ?_, ?_, ?_⟩
  · intro hp hne hcase
    unfold replicationAppendGate
    rw [if_pos hpg, if_pos (hcheck hp hne hcase)]
  · intro hp h0 hne hle
    have hm : checkLogMatchingProperty r args = -1 := by
      unfold checkLogMatchingProperty
      rw [if_neg (by omega)]
      simp [h0, hne, hle]
    unfold replicationAppendGate
    rw [if_pos hpg, if_neg (by rw [hm]; decide), if_pos hm]
  · intro h
    rw [hgo] at h ⊢
    exact (deleteConflicting_go_preserved args r args.entries 0).1 h
  · intro k hk
    rw [hgo]
    exact (deleteConflicting_go_preserved args r args.entries 0).2 k hk
  · intro m hm hpre hne hconf hle
    rw [hgo]
    refine deleteConflicting_go_shutdown args r args.entries 0 m hm ?_ ?_ ?_ ?_
    · intro k hk
      simpa using hpre k hk
    · simpa using hne
    · simpa using hconf
    · simpa using hle

/-- Witness for C6: a missing previous entry is rejected with
`prev_log_index` as the hint. -/
theorem append_conflict_safety_witness :
    replicationAppendGate cexFollowerLog cexMismatchArgs = .reject 3 :=
  (append_conflict_safety cexFollowerLog cexMismatchArgs rfl).1 (by decide)
    (by decide) (Or.inl (by decide))

/-! ## C8 -/

theorem logDiscard_appendCommands (l : RaftLog) (t : Nat) (bufs : List (List Nat)) :
    logDiscard (logAppendCommands l t bufs) (logLastIndex l + 1) = l := by
  obtain ⟨off, si, st, es, refs⟩ := l
  simp only [logDiscard, logAppendCommands, logLastIndex, RaftLog.mk.injEq]
  have h : off + es.length + 1 - off - 1 = es.length := by omega
  simp [h, List.take_left]

theorem logDiscard_logAppend (l : RaftLog) (t : Nat) (ty : EntryType) (pl : List Nat) :
    logDiscard (logAppend l t ty pl) (logLastIndex l + 1) = l := by
  obtain ⟨off, si, st, es, refs⟩ := l
  simp only [logDiscard, logAppend, logLastIndex, RaftLog.mk.injEq]
  have h : off + es.length + 1 - off - 1 = es.length := by omega
  simp [h, List.take_left]

theorem logTruncate_logAppend (l : RaftLog) (t : Nat) (ty : EntryType) (pl : List Nat) :
    logTruncate (logAppend l t ty pl) (logLastIndex l + 1) = l := by
  obtain ⟨off, si, st, es, refs⟩ := l
  simp only [logTruncate, logAppend, logLastIndex, RaftLog.mk.injEq]
  have h : off + es.length + 1 - off - 1 = es.length := by omega
  simp [h, List.take_left]

theorem requestRegDel_append (reg : List (Nat × EntryType)) (idx : Nat)
    (ty : EntryType) (h : ∀ e ∈ reg, e.1 ≠ idx) :
    requestRegDel (reg ++ [(idx, ty)]) idx = reg := by
  unfold requestRegDel
  rw [List.filter_append]
  have h1 : reg.filter (fun e => e.1 ≠ idx) = reg :=
    List.filter_eq_self.mpr (fun a ha => by simpa using h a ha)
  rw [h1]
  simp

theorem list_set_of_get? {α : Type _} :
    ∀ (l : List α) (i : Nat) (a : α), l.get? i = some a → l.set i a = l
  | [], _, _, h => by simp at h
  | x :: xs, 0, a, h => by
      injection h with h
      subst h
      rfl
  | x :: xs, i + 1, a, h => by
      simp only [List.get?] at h
      simp [List.set, list_set_of_get? xs i a h]

theorem find?_findIdx?_get? {α : Type _} (p : α → Bool) :
    ∀ (l : List α) (a : α), l.find? p = some a →
      ∃ i, l.findIdx? p = some i ∧ l.get? i = some a := by
  intro l
  induction l with
  | nil => intro a h; simp at h
  | cons x xs ih =>
    intro a h
    by_cases hp : p x = true
    · rw [List.find?_cons_of_pos _ hp] at h
      injection h with h
      subst h
      exact ⟨0, by simp [List.findIdx?_cons, hp], rfl⟩
    · rw [List.find?_cons_of_neg _ hp] at h
      obtain ⟨i, h1, h2⟩ := ih a h
      refine ⟨i + 1, ?_, by simpa using h2⟩
      rw [List.findIdx?_cons, if_neg hp, List.findIdx?_succ, h1]
      rfl

theorem configurationGet_get? (c : Configuration) (sid : Nat) (s : Server)
    (h : configurationGet c sid = some s) :
    c.servers.get? (configurationIndexOf c sid) = some s := by
  unfold configurationGet at h
  obtain ⟨i, h1, h2⟩ := find?_findIdx?_get? _ c.servers s h
  unfold configurationIndexOf
  rw [h1]
  exact h2

/-- Outcome analysis of `clientChangeConfiguration`: the status is one of
the injected ones (or NOMEM), the registry is never touched, a
self-configuration call never swaps the configuration object, and with a
successful rebuild every failure leaves the log as it was. -/
theorem clientChange_cases (appendRv trigRv : Int) (rebuildOk isSelf : Bool)
    (r : Raft) (conf : Configuration) :
    ((clientChangeConfiguration appendRv rebuildOk trigRv isSelf r conf).1 = 0 ∨
     (clientChangeConfiguration appendRv rebuildOk trigRv isSelf r conf).1 = appendRv ∨
     (clientChangeConfiguration appendRv rebuildOk trigRv isSelf r conf).1 = RAFT_NOMEM ∨
     (clientChangeConfiguration appendRv rebuildOk trigRv isSelf r conf).1 = trigRv) ∧
    (clientChangeConfiguration appendRv rebuildOk trigRv isSelf r conf).2.reg = r.reg ∧
    (isSelf = true →
      (clientChangeConfiguration appendRv rebuildOk trigRv isSelf r conf).2.configuration =
        r.configuration) ∧
    (rebuildOk = true →
      (clientChangeConfiguration appendRv rebuildOk trigRv isSelf r conf).1 ≠ 0 →
      (clientChangeConfiguration appendRv rebuildOk trigRv isSelf r conf).2.log = r.log) := by
  simp only [clientChangeConfiguration]
  by_cases ha : appendRv ≠ 0
  · rw [if_pos ha]
    exact ⟨Or.inr (Or.inl rfl), rfl, fun _ => rfl, fun _ _ => rfl⟩
  · rw [if_neg ha]
    by_cases hb : rebuildOk = true
    · rw [if_neg (not_not_intro hb)]
      by_cases hs : isSelf = true
      · rw [if_neg (not_not_intro hs)]
        by_cases ht : trigRv ≠ 0
        · rw [if_pos ht]
          refine ⟨Or.inr (Or.inr (Or.inr rfl)), rfl, fun _ => rfl, fun _ _ => ?_⟩
          exact logTruncate_logAppend r.log r.currentTerm .change []
        · rw [if_neg ht]
          refine ⟨Or.inl rfl, ?_, fun _ => ?_, fun _ h0 => absurd rfl h0⟩
          · repeat' split
            all_goals rfl
          · repeat' split
            all_goals rfl
      · rw [if_pos hs]
        by_cases ht : trigRv ≠ 0
        · rw [if_pos ht]
          refine ⟨Or.inr (Or.inr (Or.inr rfl)), rfl, fun hself => absurd hself hs,
                  fun _ _ => ?_⟩
          exact logTruncate_logAppend r.log r.currentTerm .change []
        · rw [if_neg ht]
          refine ⟨Or.inl rfl, ?_, fun hself => absurd hself hs, fun _ h0 => absurd rfl h0⟩
          repeat' split
          all_goals rfl
    · rw [if_pos hb]
      exact ⟨Or.inr (Or.inr (Or.inl rfl)), rfl, fun _ => rfl, fun h => absurd h hb⟩

/-- Rollback behavior of `raft_apply`: every pre-append rejection leaves
the state untouched, and every failure leaves log, registry and
configuration as they were. -/
theorem raft_apply_rollback (appendRv regRv trigRv : Int) (r : Raft)
    (bufs : List (List Nat))
    (hR : ¬rejectCode regRv) (hT : ¬rejectCode trigRv)
    (hreg : ∀ e ∈ r.reg, e.1 ≤ logLastIndex r.log) :
    (rejectCode (raft_apply appendRv regRv trigRv r bufs).1 →
      (raft_apply appendRv regRv trigRv r bufs).2 = r) ∧
    ((raft_apply appendRv regRv trigRv r bufs).1 ≠ 0 →
      (raft_apply appendRv regRv trigRv r bufs).2.log = r.log ∧
      (raft_apply appendRv regRv trigRv r bufs).2.reg = r.reg ∧
      (raft_apply appendRv regRv trigRv r bufs).2.configuration = r.configuration) := by
  simp only [raft_apply]
  by_cases hg : r.state ≠ .leader ∨ r.transfer ∨ r.removedFromCluster
  · rw [if_pos hg]
    exact ⟨fun _ => rfl, fun _ => ⟨rfl, rfl, rfl⟩⟩
  · rw [if_neg hg]
    by_cases ha : appendRv ≠ 0
    · rw [if_pos ha]
      exact ⟨fun _ => rfl, fun _ => ⟨rfl, rfl, rfl⟩⟩
    · rw [if_neg ha]
      by_cases hr : regRv ≠ 0
      · rw [if_pos hr]
        exact ⟨fun hrc => absurd hrc hR,
               fun _ => ⟨logDiscard_appendCommands r.log r.currentTerm bufs, rfl, rfl⟩⟩
      · rw [if_neg hr]
        by_cases ht : trigRv ≠ 0
        · rw [if_pos ht]
          refine ⟨fun hrc => absurd hrc hT, fun _ => ⟨?_, ?_, rfl⟩⟩
          · exact logDiscard_appendCommands r.log r.currentTerm bufs
          · exact requestRegDel_append r.reg _ _ (fun e he => by
              have := hreg e he; omega)
        · rw [if_neg ht]
          exact ⟨fun hrc => absurd (show rejectCode 0 from hrc) (by decide),
                 fun h0 => absurd rfl h0⟩

/-- Rollback behavior of `raft_barrier`. -/
theorem raft_barrier_rollback (appendRv regRv trigRv : Int) (r : Raft)
    (hR : ¬rejectCode regRv) (hT : ¬rejectCode trigRv)
    (hreg : ∀ e ∈ r.reg, e.1 ≤ logLastIndex r.log) :
    (rejectCode (raft_barrier appendRv regRv trigRv r).1 →
      (raft_barrier appendRv regRv trigRv r).2 = r) ∧
    ((raft_barrier appendRv regRv trigRv r).1 ≠ 0 →
      (raft_barrier appendRv regRv trigRv r).2.log = r.log ∧
      (raft_barrier appendRv regRv trigRv r).2.reg = r.reg ∧
      (raft_barrier appendRv regRv trigRv r).2.configuration = r.configuration) := by
  simp only [raft_barrier]
  by_cases hg : r.state ≠ .leader ∨ r.transfer
  · rw [if_pos hg]
    exact ⟨fun _ => rfl, fun _ => ⟨rfl, rfl, rfl⟩⟩
  · rw [if_neg hg]
    by_cases ha : appendRv ≠ 0
    · rw [if_pos ha]
      exact ⟨fun _ => rfl, fun _ => ⟨rfl, rfl, rfl⟩⟩
    · rw [if_neg ha]
      by_cases hr : regRv ≠ 0
      · rw [if_pos hr]
        exact ⟨fun hrc => absurd hrc hR,
               fun _ => ⟨logDiscard_logAppend r.log r.currentTerm .barrier [], rfl, rfl⟩⟩
      · rw [if_neg hr]
        by_cases ht : trigRv ≠ 0
        · rw [if_pos ht]
          refine ⟨fun hrc => absurd hrc hT, fun _ => ⟨?_, ?_, rfl⟩⟩
          · exact logDiscard_logAppend r.log r.currentTerm .barrier []
          · exact requestRegDel_append r.reg _ _ (fun e he => by
              have := hreg e he; omega)
        · rw [if_neg ht]
          exact ⟨fun hrc => absurd (show rejectCode 0 from hrc) (by decide),
                 fun h0 => absurd rfl h0⟩

/-- Setting a server slot back to its looked-up value restores the
configuration. -/
theorem configuration_set_restore (c : Configuration) (sid : Nat) (server s' : Server)
    (hg : configurationGet c sid = some server) :
    ({ servers := (c.servers.set (configurationIndexOf c sid) s').set
          (configurationIndexOf c sid) server,
       phase := c.phase } : Configuration) = c := by
  have h : (c.servers.set (configurationIndexOf c sid) s').set
      (configurationIndexOf c sid) server = c.servers := by
    rw [List.set_set]
    exact list_set_of_get? _ _ _ (configurationGet_get? c sid server hg)
  rw [h]

set_option maxHeartbeats 1000000 in
/-- Rollback behavior of `raft_assign`: pre-append rejections leave the
state untouched; with a successful rebuild, failures restore log,
registry and configuration (the demoted role is set back). -/
theorem raft_assign_rollback (appendRv trigRv : Int) (rebuildOk : Bool) (r : Raft)
    (sid : Nat) (role : Role) (now : Nat)
    (hA : ¬rejectCode appendRv) (hT : ¬rejectCode trigRv) :
    (rejectCode (raft_assign appendRv rebuildOk trigRv r sid role now).1 →
      (raft_assign appendRv rebuildOk trigRv r sid role now).2 = r) ∧
    (rebuildOk = true → (raft_assign appendRv rebuildOk trigRv r sid role now).1 ≠ 0 →
      (raft_assign appendRv rebuildOk trigRv r sid role now).2.log = r.log ∧
      (raft_assign appendRv rebuildOk trigRv r sid role now).2.reg = r.reg ∧
      (raft_assign appendRv rebuildOk trigRv r sid role now).2.configuration =
        r.configuration) := by
  simp only [raft_assign]
  by_cases hc : membershipCanChangeConfiguration r false ≠ 0
  · rw [if_pos hc]
    exact ⟨fun _ => rfl, fun _ _ => ⟨rfl, rfl, rfl⟩⟩
  · rw [if_neg hc]
    cases hg : configurationGet r.configuration sid with
    | none =>
      exact ⟨fun _ => rfl, fun _ _ => ⟨rfl, rfl, rfl⟩⟩
    | some server =>
      dsimp only
      by_cases hrole : server.role = role
      · rw [if_pos hrole]
        exact ⟨fun _ => rfl, fun _ _ => ⟨rfl, rfl, rfl⟩⟩
      · rw [if_neg hrole]
        split
        · -- immediate configuration change
          rcases hcall : clientChangeConfiguration appendRv rebuildOk trigRv true
              { r with leaderChange := true, configuration :=
                { servers := r.configuration.servers.set
                    (configurationIndexOf r.configuration sid) { server with role := role },
                  phase := r.configuration.phase } }
              { servers := r.configuration.servers.set
                  (configurationIndexOf r.configuration sid) { server with role := role },
                phase := r.configuration.phase }
            with ⟨rv, r3⟩
          have hcc := clientChange_cases appendRv trigRv rebuildOk true
              { r with leaderChange := true, configuration :=
                { servers := r.configuration.servers.set
                    (configurationIndexOf r.configuration sid) { server with role := role },
                  phase := r.configuration.phase } }
              { servers := r.configuration.servers.set
                  (configurationIndexOf r.configuration sid) { server with role := role },
                phase := r.configuration.phase }
          rw [hcall] at hcc
          obtain ⟨hval, hreg2, hconf2, hlog2⟩ := hcc
          dsimp only
          by_cases hrv : rv = 0
          · rw [if_neg (not_not_intro hrv)]
            exact ⟨fun hrc => absurd (show rejectCode 0 from hrc) (by decide),
                   fun _ h0 => absurd rfl h0⟩
          · rw [if_pos hrv]
            refine ⟨fun hrc => ?_, fun hb' h0 => ⟨?_, ?_, ?_⟩⟩
            · rcases hval with h | h | h | h
              · exact absurd h hrv
              · exact absurd (h ▸ hrc) hA
              · exact absurd (h ▸ hrc) (by decide)
              · exact absurd (h ▸ hrc) hT
            · exact hlog2 hb' hrv
            · exact hreg2
            · have h3 : r3.configuration =
                  { servers := r.configuration.servers.set
                      (configurationIndexOf r.configuration sid) { server with role := role },
                    phase := r.configuration.phase } := hconf2 rfl
              show ({ servers :=
                        r3.configuration.servers.set (configurationIndexOf r.configuration sid)
                          { server with role := server.role },
                      phase := r3.configuration.phase } : Configuration) = r.configuration
              rw [h3]
              exact configuration_set_restore r.configuration sid server _ hg
        · -- catch-up round
          exact ⟨fun hrc => absurd (show rejectCode 0 from hrc) (by decide),
                 fun _ h0 => absurd rfl h0⟩

set_option maxHeartbeats 1000000 in
/-- Rollback behavior of `raft_add`: pre-append rejections (including
`BADID` and `DUPLICATEID`) leave the state untouched; with a successful
rebuild, failures leave log and registry as they were. -/
theorem raft_add_rollback (appendRv trigRv : Int) (rebuildOk : Bool) (r : Raft)
    (sid : Nat) (hA : ¬rejectCode appendRv) (hT : ¬rejectCode trigRv) :
    (rejectCode (raft_add appendRv rebuildOk trigRv r sid).1 →
      (raft_add appendRv rebuildOk trigRv r sid).2 = r) ∧
    (rebuildOk = true → (raft_add appendRv rebuildOk trigRv r sid).1 ≠ 0 →
      (raft_add appendRv rebuildOk trigRv r sid).2.log = r.log ∧
      (raft_add appendRv rebuildOk trigRv r sid).2.reg = r.reg) := by
  simp only [raft_add]
  by_cases hc : membershipCanChangeConfiguration r false ≠ 0
  · rw [if_pos hc]
    exact ⟨fun _ => rfl, fun _ _ => ⟨rfl, rfl⟩⟩
  · rw [if_neg hc]
    simp only [raft_configuration_add]
    by_cases h0 : sid = 0
    · rw [if_pos h0]
      dsimp only
      rw [if_pos (by decide : RAFT_BADID ≠ 0)]
      exact ⟨fun _ => rfl, fun _ _ => ⟨rfl, rfl⟩⟩
    · rw [if_neg h0]
      by_cases hdup : r.configuration.servers.any (fun s => s.id = sid) = true
      · rw [if_pos hdup]
        dsimp only
        rw [if_pos (by decide : RAFT_DUPLICATEID ≠ 0)]
        exact ⟨fun _ => rfl, fun _ _ => ⟨rfl, rfl⟩⟩
      · rw [if_neg hdup]
        dsimp only
        rcases hcall : clientChangeConfiguration appendRv rebuildOk trigRv false r
            { servers := r.configuration.servers ++
                [{ id := sid, role := Role.spare, roleNew := Role.spare,
                   group := RAFT_GROUP_OLD }],
              phase := r.configuration.phase }
          with ⟨rv, r1⟩
        have hcc := clientChange_cases appendRv trigRv rebuildOk false r
            { servers := r.configuration.servers ++
                [{ id := sid, role := Role.spare, roleNew := Role.spare,
                   group := RAFT_GROUP_OLD }],
              phase := r.configuration.phase }
        rw [hcall] at hcc
        obtain ⟨hval, hreg2, hconf2, hlog2⟩ := hcc
        dsimp only
        by_cases hrv : rv = 0
        · rw [if_neg (not_not_intro hrv)]
          exact ⟨fun hrc => absurd (show rejectCode 0 from hrc) (by decide),
                 fun _ h0' => absurd rfl h0'⟩
        · rw [if_pos hrv]
          refine ⟨fun hrc => ?_, fun hb' h0' => ⟨hlog2 hb' hrv, hreg2⟩⟩
          rcases hval with h | h | h | h
          · exact absurd h hrv
          · exact absurd (h ▸ hrc) hA
          · exact absurd (h ▸ hrc) (by decide)
          · exact absurd (h ▸ hrc) hT

set_option maxHeartbeats 1000000 in
/-- Rollback behavior of `raft_remove`: pre-append rejections leave the
state untouched; with a successful rebuild, failures leave log and
registry as they were. -/
theorem raft_remove_rollback (appendRv trigRv : Int) (rebuildOk : Bool) (r : Raft)
    (sid : Nat) (hA : ¬rejectCode appendRv) (hT : ¬rejectCode trigRv) :
    (rejectCode (raft_remove appendRv rebuildOk trigRv r sid).1 →
      (raft_remove appendRv rebuildOk trigRv r sid).2 = r) ∧
    (rebuildOk = true → (raft_remove appendRv rebuildOk trigRv r sid).1 ≠ 0 →
      (raft_remove appendRv rebuildOk trigRv r sid).2.log = r.log ∧
      (raft_remove appendRv rebuildOk trigRv r sid).2.reg = r.reg) := by
  simp only [raft_remove]
  by_cases hc : membershipCanChangeConfiguration r
      (decide (r.configuration.phase = ConfPhase.joint)) ≠ 0
  · rw [if_pos hc]
    exact ⟨fun _ => rfl, fun _ _ => ⟨rfl, rfl⟩⟩
  · rw [if_neg hc]
    cases hg : configurationGet r.configuration sid with
    | none =>
      exact ⟨fun _ => rfl, fun _ _ => ⟨rfl, rfl⟩⟩
    | some server =>
      dsimp only
      rcases hcall : clientChangeConfiguration appendRv rebuildOk trigRv false r
          (if r.configuration.phase = ConfPhase.joint then
            configurationRemove (copyJointRemoveConfiguration r sid) sid
          else configurationRemove r.configuration sid)
        with ⟨rv, r1⟩
      have hcc := clientChange_cases appendRv trigRv rebuildOk false r
          (if r.configuration.phase = ConfPhase.joint then
            configurationRemove (copyJointRemoveConfiguration r sid) sid
          else configurationRemove r.configuration sid)
      rw [hcall] at hcc
      obtain ⟨hval, hreg2, hconf2, hlog2⟩ := hcc
      dsimp only
      by_cases hrv : rv = 0
      · rw [if_neg (not_not_intro hrv)]
        exact ⟨fun hrc => absurd (show rejectCode 0 from hrc) (by decide),
               fun _ h0' => absurd rfl h0'⟩
      · rw [if_pos hrv]
        refine ⟨fun hrc => ?_, fun hb' h0' => ⟨hlog2 hb' hrv, hreg2⟩⟩
        rcases hval with h | h | h | h
        · exact absurd h hrv
        · exact absurd (h ▸ hrc) hA
        · exact absurd (h ▸ hrc) (by decide)
        · exact absurd (h ▸ hrc) hT

/-- C8 (counterexample): when the progress-array rebuild inside
`clientChangeConfiguration` fails (NOMEM) after the CHANGE entry was
appended, `raft_add` returns the error but the appended entry is NOT
discarded from the log. -/
theorem raft_add_rebuild_failure_keeps_entry :
    (raft_add 0 false 0 cexAddLeader 2).1 = RAFT_NOMEM ∧
    (raft_add 0 false 0 cexAddLeader 2).1 ≠ 0 ∧
    (raft_add 0 false 0 cexAddLeader 2).2.log ≠ cexAddLeader.log := by
  refine ⟨by decide, by decide, by decide⟩

/-- C8 (amended): pre-append rejections (`NOTLEADER`, `BADROLE`, `BADID`,
`NOTFOUND`, `DUPLICATEID`) leave the whole state unchanged for
`raft_apply`, `raft_barrier`, `raft_assign`, `raft_add` and
`raft_remove`; `raft_apply`/`raft_barrier` failures after the append
discard the appended entries and remove the registry entry; for the
configuration-change operations every failure other than a
progress-array rebuild failure restores the log (and, for `raft_assign`,
the configuration), the registry being untouched.  The injected statuses
of the fallible collaborators are assumed not to collide with the
rejection codes, and registry entries point at or below the last log
index. -/
theorem client_requests_rollback (appendRv regRv trigRv : Int) (rebuildOk : Bool)
    (r : Raft) (bufs : List (List Nat)) (sid : Nat) (role : Role) (now : Nat)
    (hA : ¬rejectCode appendRv) (hR : ¬rejectCode regRv) (hT : ¬rejectCode trigRv)
    (hreg : ∀ e ∈ r.reg, e.1 ≤ logLastIndex r.log) :
    ((rejectCode (raft_apply appendRv regRv trigRv r bufs).1 →
       (raft_apply appendRv regRv trigRv r bufs).2 = r) ∧
     ((raft_apply appendRv regRv trigRv r bufs).1 ≠ 0 →
       (raft_apply appendRv regRv trigRv r bufs).2.log = r.log ∧
       (raft_apply appendRv regRv trigRv r bufs).2.reg = r.reg ∧
       (raft_apply appendRv regRv trigRv r bufs).2.configuration = r.configuration)) ∧
    ((rejectCode (raft_barrier appendRv regRv trigRv r).1 →
       (raft_barrier appendRv regRv trigRv r).2 = r) ∧
     ((raft_barrier appendRv regRv trigRv r).1 ≠ 0 →
       (raft_barrier appendRv regRv trigRv r).2.log = r.log ∧
       (raft_barrier appendRv regRv trigRv r).2.reg = r.reg ∧
       (raft_barrier appendRv regRv trigRv r).2.configuration = r.configuration)) ∧
    ((rejectCode (raft_assign appendRv rebuildOk trigRv r sid role now).1 →
       (raft_assign appendRv rebuildOk trigRv r sid role now).2 = r) ∧
     (rebuildOk = true → (raft_assign appendRv rebuildOk trigRv r sid role now).1 ≠ 0 →
       (raft_assign appendRv rebuildOk trigRv r sid role now).2.log = r.log ∧
       (raft_assign appendRv rebuildOk trigRv r sid role now).2.reg = r.reg ∧
       (raft_assign appendRv rebuildOk trigRv r sid role now).2.configuration =
         r.configuration)) ∧
    ((rejectCode (raft_add appendRv rebuildOk trigRv r sid).1 →
       (raft_add appendRv rebuildOk trigRv r sid).2 = r) ∧
     (rebuildOk = true → (raft_add appendRv rebuildOk trigRv r sid).1 ≠ 0 →
       (raft_add appendRv rebuildOk trigRv r sid).2.log = r.log ∧
       (raft_add appendRv rebuildOk trigRv r sid).2.reg = r.reg)) ∧
    ((rejectCode (raft_remove appendRv rebuildOk trigRv r sid).1 →
       (raft_remove appendRv rebuildOk trigRv r sid).2 = r) ∧
     (rebuildOk = true → (raft_remove appendRv rebuildOk trigRv r sid).1 ≠ 0 →
       (raft_remove appendRv rebuildOk trigRv r sid).2.log = r.log ∧
       (raft_remove appendRv rebuildOk trigRv r sid).2.reg = r.reg)) :=
  ⟨raft_apply_rollback appendRv regRv trigRv r bufs hR hT hreg,
   raft_barrier_rollback appendRv regRv trigRv r hR hT hreg,
   raft_assign_rollback appendRv trigRv rebuildOk r sid role now hA hT,
   raft_add_rollback appendRv trigRv rebuildOk r sid hA hT,
   raft_remove_rollback appendRv trigRv rebuildOk r sid hA hT⟩

/-- Witness for C8: a follower rejects `raft_apply` with `NOTLEADER` and
is left unchanged. -/
theorem client_requests_rollback_witness :
    (raft_apply 0 0 0 raft0 [[]]).2 = raft0 :=
  (client_requests_rollback 0 0 0 false raft0 [[]] 2 Role.voter 0
    (by decide) (by decide) (by decide) (by simp [raft0])).1.1 (by decide)

end ZRaft
